import Mathlib

/-!
Verification of the rockpi-penta-golang fan/button core against its
natural-language specification.

The repository contains several rewritten variants of the fan and button
packages (`src/pkg`, `src/cmd/pkg`, and the unnamed parts).  Every definition
below is a shallow embedding of one concrete Go function, named in its doc
comment.  Go `float64` values are modelled as exact rationals (`ℚ`); time is
modelled in whole seconds (`ℤ`); sensor and actuator I/O results are passed
in as explicit parameters (`Option`/`Bool`).
-/

/-- `FanConfig` from src/pkg/config/config.go:29-34 — the four Celsius
thresholds `lv0 < lv1 < lv2 < lv3` (ascending by convention, not enforced). -/
structure FanConfig where
  Lv0 : ℚ
  Lv1 : ℚ
  Lv2 : ℚ
  Lv3 : ℚ
deriving DecidableEq

/-- `Config.GetFanDutyCycle` from src/pkg/config/config.go:310-330.  The
`switch` in `getFanDutyCycle` (src/unnamed/part_007:352-381) is the identical
cascade.  `running` stands for `c.IsRunning()` / `conf.Run.Load()`. -/
def GetFanDutyCycle (running : Bool) (c : FanConfig) (temp : ℚ) : ℚ :=
  if !running then 999/1000
  else if temp ≥ c.Lv3 then 0
  else if temp ≥ c.Lv2 then 1/4
  else if temp ≥ c.Lv1 then 1/2
  else if temp ≥ c.Lv0 then 3/4
  else 999/1000

/-- The clamp performed by `PWMController.setDutyCycle`
(src/cmd/pkg/hardware/fan/fan.go:170-181) before the on-time `dutyNs` is
computed; `hardwarePWMFan.SetDutyCycle` (src/unnamed/part_007:87-98) clamps
identically. -/
def clampDuty (duty : ℚ) : ℚ :=
  if duty < 0 then 0
  else if duty > 1 then 1
  else duty

/-- One iteration of the ticker branch of `controlFanLoop`
(src/unnamed/part_007:452-470): the backend `fan.SetDutyCycle` is invoked only
when `abs(targetDuty-lastDuty) >= 0.01`; `lastDuty` is advanced only when the
write succeeds (`setOk`).  Returns the new `lastDuty` and the number of
backend set-duty calls made on the tick. -/
def controlFanTick (targetDuty : ℚ) (setOk : Bool) (lastDuty : ℚ) : ℚ × Nat :=
  if 1/100 ≤ |targetDuty - lastDuty| then
    ((if setOk then targetDuty else lastDuty), 1)
  else (lastDuty, 0)

/-- The duty-write part of `Controller.updateFanSpeed`
(src/pkg/hardware/fan/fan.go:313-321): the backend is invoked only when
`duty != c.lastDuty`, and `c.lastDuty` is advanced only on success. -/
def updateFanTick (duty : ℚ) (setOk : Bool) (lastDuty : ℚ) : ℚ × Nat :=
  if duty ≠ lastDuty then ((if setOk then duty else lastDuty), 1)
  else (lastDuty, 0)

/-- `Controller.setDutyCycle` from src/cmd/pkg/hardware/fan/fan.go:281-299:
an equal duty returns early without touching the backend, otherwise
`c.lastDuty` is assigned BEFORE the backend call, so the recorded value is the
target even when the backend write fails.  Returns
(new `lastDuty`, backend calls made, success of the call). -/
def cmdSetDutyCycle (duty lastDuty : ℚ) (backendOk : Bool) : ℚ × Nat × Bool :=
  if duty = lastDuty then (lastDuty, 0, true)
  else (duty, 1, backendOk)

/-- `TempCache` from src/unnamed/part_007:327-330: last sensed Celsius value
and the capture time (seconds). -/
structure TempCache where
  Value : ℚ
  Timestamp : ℤ
deriving DecidableEq

/-- `getTemperatureForFanControl` (src/unnamed/part_007:385-405) with
`readCPUTemperature` (src/unnamed/part_007:409-444) inlined.  Sensor I/O is
passed in: `disk` is the result of `sysinfo.GetHighestDiskTemperature`
(`none` = error) and `cpu` the Celsius value successfully read and parsed by
`readCPUTemperature` (`none` = read error or unparsable output).  A cached
value younger than `fanTempCacheTime` (60 s) is returned as-is; otherwise the
disk sensor is tried, then the CPU sensor, and when both fail the function
falls back to the cached value when positive, else to the 40 °C default.
Returns the temperature handed to the duty policy and the updated cache. -/
def getTemperatureForFanControl (now : ℤ) (cache : TempCache)
    (disk : Option ℚ) (cpu : Option ℚ) : ℚ × TempCache :=
  if now - cache.Timestamp < 60 then (cache.Value, cache)
  else
    match disk with
    | some d =>
      if 0 < d then (d, { Value := d, Timestamp := now })
      else
        match cpu with
        | some t => (t, { Value := t, Timestamp := now })
        | none => if 0 < cache.Value then (cache.Value, cache) else (40, cache)
    | none =>
      match cpu with
      | some t => (t, { Value := t, Timestamp := now })
      | none => if 0 < cache.Value then (cache.Value, cache) else (40, cache)

/-- `Controller.getTemperature` from src/cmd/pkg/hardware/fan/fan.go:258-279:
a cached value younger than 60 s is returned without sensor I/O; otherwise
`readTemperature` runs (`read`; `none` = error) and an error is propagated,
which makes `Controller.Run` (fan.go:323-327) log and skip the tick.  Returns
`none` on error, else the temperature with the refreshed cache. -/
def getTemperature (now : ℤ) (cacheTemp : ℚ) (cacheTime : ℤ)
    (read : Option ℚ) : Option (ℚ × ℚ × ℤ) :=
  if now - cacheTime < 60 then some (cacheTemp, cacheTemp, cacheTime)
  else
    match read with
    | none => none
    | some t => some (t, t, now)

/-- GPIO line level (`periph.io` `gpio.Low` / `gpio.High`). -/
inductive GpioLevel where
  | low
  | high
deriving DecidableEq

/-- State of the software PWM goroutine `softwarePWMFan.runPWM`
(src/unnamed/part_007:173-241, the `sleepEnabled` branch): the last driven
line level, the tick counter, and the value stored in `currentDuty`
(`uint64(duty * softwarePwmResolution)`, resolution 100). -/
structure SoftPWMState where
  pinState : GpioLevel
  counter : Nat
  currentDuty : Nat
deriving DecidableEq

/-- The `case duty := <-s.dutyChan` arm of `softwarePWMFan.runPWM`
(src/unnamed/part_007:188-210): an incoming duty below 0.01 is clamped to 0
and one above 0.99 to 1.0; the scaled value is stored (Go float-to-uint64
conversion truncates, modelled by the integer floor); for the special cases
(duty ≤ 0 or ≥ 1) the pin is driven directly; the counter is reset.  Returns
the new state and the pin writes performed. -/
def handleDutyUpdate (duty : ℚ) (s : SoftPWMState) : SoftPWMState × List GpioLevel :=
  let d := if duty < 1/100 then 0 else if duty > 99/100 then 1 else duty
  let stored := (⌊d * 100⌋).toNat
  if d ≤ 0 then
    ({ pinState := GpioLevel.low, counter := 0, currentDuty := stored }, [GpioLevel.low])
  else if d ≥ 1 then
    ({ pinState := GpioLevel.high, counter := 0, currentDuty := stored }, [GpioLevel.high])
  else
    ({ s with counter := 0, currentDuty := stored }, [])

/-- The `case <-ticker.C` arm of `softwarePWMFan.runPWM`
(src/unnamed/part_007:212-234): special-case duties (≤ 0 or ≥ 1) skip the
cycle entirely (`continue`); otherwise counter-based PWM drives the pin high
below the threshold and low at or above it, writing only on a change. -/
def handleTick (s : SoftPWMState) : SoftPWMState × List GpioLevel :=
  let duty : ℚ := (s.currentDuty : ℚ) / 100
  if duty ≤ 0 ∨ duty ≥ 1 then (s, [])
  else
    let counter := (s.counter + 1) % 100
    let threshold := (⌊duty * 100⌋).toNat
    if counter < threshold then
      if s.pinState ≠ GpioLevel.high then
        ({ s with pinState := GpioLevel.high, counter := counter }, [GpioLevel.high])
      else ({ s with counter := counter }, [])
    else
      if s.pinState ≠ GpioLevel.low then
        ({ s with pinState := GpioLevel.low, counter := counter }, [GpioLevel.low])
      else ({ s with counter := counter }, [])

/-- `n` consecutive ticker iterations of the software PWM goroutine,
collecting all pin writes. -/
def runTicks : Nat → SoftPWMState → SoftPWMState × List GpioLevel
  | 0, s => (s, [])
  | n + 1, s =>
    ((runTicks n (handleTick s).1).1, (handleTick s).2 ++ (runTicks n (handleTick s).1).2)

/-- One ticker iteration of `SoftwarePWM.runPWM`
(src/pkg/hardware/fan/fan.go:205-229): duty ≤ 0.001 drives the line low and
skips the cycle, duty ≥ 0.999 drives it high, anything in between performs a
high-then-low PWM cycle.  Returns the pin writes of the iteration. -/
def swTick (duty : ℚ) : List GpioLevel :=
  if duty ≤ 1/1000 then [GpioLevel.low]
  else if duty ≥ 999/1000 then [GpioLevel.high]
  else [GpioLevel.high, GpioLevel.low]

/-- State of the src/pkg `SoftwarePWM` backend as far as shutdown is
concerned: whether the PWM goroutine is running and the last driven line
level. -/
structure SoftwarePWMState where
  running : Bool
  line : GpioLevel
deriving DecidableEq

/-- `SoftwarePWM.Close` (src/pkg/hardware/fan/fan.go:181-190) together with
the loop's stop arm (fan.go:202-204, `case <-s.stopCh: return`): Close merely
closes `stopCh` and clears `running`; neither Close nor the returning loop
writes the GPIO line, so the line keeps its last driven level.  Returns the
new state and the pin writes performed during shutdown. -/
def SoftwarePWM.Close (s : SoftwarePWMState) : SoftwarePWMState × List GpioLevel :=
  if s.running then ({ running := false, line := s.line }, [])
  else (s, [])

/-- `softwarePWMFan.Cleanup` (src/unnamed/part_007:308-314): closing
`stopChan` makes the goroutine run its stop arm (part_007:236-239), which
writes Low before returning; Cleanup then writes Low itself
(`return s.pin.Out(gpio.Low)`).  Returns the final state and the pin writes
performed during shutdown. -/
def softwarePWMFan.Cleanup (s : SoftPWMState) : SoftPWMState × List GpioLevel :=
  ({ s with pinState := GpioLevel.low }, [GpioLevel.low, GpioLevel.low])

/-- `HardwarePWM.Close` (src/pkg/hardware/fan/fan.go:166-170) writes "0" to
the sysfs `enable` file; `hardwarePWMFan.Cleanup` (src/unnamed/part_007:111-124)
and `PWMController.Close` (src/cmd/pkg/hardware/fan/fan.go:239-241) do the
same.  The argument is the enabled flag before Close, the result after. -/
def HardwarePWM.Close (_enabled : Bool) : Bool := false

/-- `ButtonEvent` from src/unnamed/part_005:628-636 (also the event strings
of src/unnamed/part_006); `EventNone` is never sent. -/
inductive BtnEvent where
  | click
  | twice
  | press
deriving DecidableEq

/-- Timing configuration of `buttonWatcher` (src/unnamed/part_005:693-723):
`pressSamples` is `int(conf.Time.Press / 0.1)`, `waitSamples` is
`int(conf.Time.Twice / 0.1)`, and `bufferSize` is `pressSamples + 5`. -/
structure WatchConf where
  pressSamples : Nat
  waitSamples : Nat
  bufferSize : Nat
deriving DecidableEq

/-- State carried across iterations of `buttonWatcher.watch`
(src/unnamed/part_005:729-798): the 0/1 sample buffer (`true` = '1' =
released/High, `false` = '0' = pressed/Low) and the previous level. -/
structure WatchState where
  stateBuffer : List Bool
  lastLevel : Bool
deriving DecidableEq

/-- Index of the last occurrence of `v`, mirroring Go `strings.LastIndex`
(`none` = -1). -/
def lastIndexOf (v : Bool) : List Bool → Option Nat
  | [] => none
  | a :: rest =>
    match lastIndexOf v rest with
    | some i => some (i + 1)
    | none => if a = v then some 0 else none

/-- The values of the maximal runs of a list, in order (run-length encoding
without the lengths). -/
def runValues : List Bool → List Bool
  | [] => []
  | [a] => [a]
  | a :: b :: rest =>
    if a = b then runValues (b :: rest) else a :: runValues (b :: rest)

/-- The regex `1+0+$` (the `pressPattern` of src/unnamed/part_005:712) matches
the buffer iff it ends in a nonempty run of '0's immediately preceded by a
'1', i.e. the run values of the reversed buffer begin `[0-run, 1-run]`. -/
def pressPatternMatch (buffer : List Bool) : Bool :=
  (runValues buffer.reverse).take 2 = [false, true]

/-- The regex `1+0+1+$` (the `clickPattern` of src/unnamed/part_005:703). -/
def clickPatternMatch (buffer : List Bool) : Bool :=
  (runValues buffer.reverse).take 3 = [true, false, true]

/-- The regex `1+0+1+0+1+$` (the `twicePattern` of src/unnamed/part_005:708). -/
def twicePatternMatch (buffer : List Bool) : Bool :=
  (runValues buffer.reverse).take 5 = [true, false, true, false, true]

/-- `buttonWatcher.checkPressTiming` (src/unnamed/part_005:881-894): the run
of '0's after the last '1' must be at least `pressSamples` long. -/
def checkPressTiming (c : WatchConf) (buffer : List Bool) : Bool :=
  match lastIndexOf true buffer with
  | none => false
  | some lastOne =>
    if lastOne = buffer.length - 1 then false
    else decide (c.pressSamples ≤ buffer.length - (lastOne + 1))

/-- `buttonWatcher.checkClickTiming` (src/unnamed/part_005:801-828): the final
run of '1's must be at least `waitSamples` long and the preceding run of '0's
shorter than `pressSamples`. -/
def checkClickTiming (c : WatchConf) (buffer : List Bool) : Bool :=
  match lastIndexOf false buffer with
  | none => false
  | some lastZero =>
    if lastZero = buffer.length - 1 then false
    else
      match lastIndexOf true (buffer.take (lastZero + 1)) with
      | none => false
      | some firstOneBeforeLastZero =>
        decide (c.waitSamples ≤ buffer.length - (lastZero + 1))
          && decide (lastZero - firstOneBeforeLastZero < c.pressSamples)

/-- `buttonWatcher.checkTwiceTiming` (src/unnamed/part_005:831-878): final
release ≥ 3 samples, both press runs shorter than `pressSamples`, and the gap
between the presses shorter than `waitSamples`. -/
def checkTwiceTiming (c : WatchConf) (buffer : List Bool) : Bool :=
  match lastIndexOf false buffer with
  | none => false
  | some lastZero =>
    if lastZero = buffer.length - 1 then false
    else if buffer.length - (lastZero + 1) < 3 then false
    else
      match lastIndexOf true (buffer.take (lastZero + 1)) with
      | none => false
      | some lastOneBeforeLastZero =>
        match lastIndexOf false (buffer.take (lastOneBeforeLastZero + 1)) with
        | none => false
        | some secondLastZero =>
          match lastIndexOf true (buffer.take (secondLastZero + 1)) with
          | none => false
          | some firstOneBeforeSecondLastZero =>
            decide (secondLastZero - firstOneBeforeSecondLastZero < c.pressSamples)
              && decide (lastZero - lastOneBeforeLastZero < c.pressSamples)
              && decide (lastOneBeforeLastZero - secondLastZero < c.waitSamples)

/-- Buffer trimming of src/unnamed/part_005:748-750: keep only the last
`size` samples. -/
def trimBuffer (size : Nat) (l : List Bool) : List Bool :=
  if size < l.length then l.drop (l.length - size) else l

/-- One iteration of the loop body of `buttonWatcher.watch`
(src/unnamed/part_005:739-797): append the sampled level to the buffer and
trim it; on a Low-to-High transition check twice then click (emitting the
event and resetting the buffer to all '1's on a match); while Low, check for
an ongoing long press.  Returns the new state and the emitted events. -/
def watchStep (c : WatchConf) (s : WatchState) (level : Bool) :
    WatchState × List BtnEvent :=
  let buf := trimBuffer c.bufferSize (s.stateBuffer ++ [level])
  if level && !s.lastLevel then
    if twicePatternMatch buf && checkTwiceTiming c buf then
      (⟨List.replicate c.bufferSize true, level⟩, [BtnEvent.twice])
    else if clickPatternMatch buf && checkClickTiming c buf then
      (⟨List.replicate c.bufferSize true, level⟩, [BtnEvent.click])
    else (⟨buf, level⟩, [])
  else if !level && pressPatternMatch buf && checkPressTiming c buf then
    (⟨List.replicate c.bufferSize true, level⟩, [BtnEvent.press])
  else (⟨buf, level⟩, [])

/-- `buttonWatcher.watch` run over a whole sample stream, collecting the
emitted events in order.  The initial state (part_005:731-737) is a buffer of
`bufferSize` '1's with `lastLevel` High. -/
def watchRun (c : WatchConf) (s : WatchState) : List Bool → List BtnEvent × WatchState
  | [] => ([], s)
  | l :: rest =>
    ((watchStep c s l).2 ++ (watchRun c (watchStep c s l).1 rest).1,
     (watchRun c (watchStep c s l).1 rest).2)

/-- The event handoff of `buttonWatcher.watch`: events are sent with a plain
channel send `bw.eventChan <- e` on the buffered channel created by
`StartButtonWatcher` (src/unnamed/part_005:897-898, capacity 5).  A blocking
send completes only when the queue has room; with no concurrent receiver a
full queue means the watcher cannot finish the iteration, modelled as `none`. -/
def watchStepQ (cap : Nat) (c : WatchConf) (s : WatchState) (q : List BtnEvent)
    (level : Bool) : Option (WatchState × List BtnEvent) :=
  match watchStep c s level with
  | (s', []) => some (s', q)
  | (s', e :: _) => if q.length < cap then some (s', q ++ [e]) else none

/-- Run-length encoding of a sample buffer (maximal runs with lengths),
front to back. -/
def rle : List Bool → List (Bool × Nat)
  | [] => []
  | a :: rest =>
    match rle rest with
    | [] => [(a, 1)]
    | (b, n) :: t => if a = b then (b, n + 1) :: t else (a, 1) :: (b, n) :: t

/-- The unanchored regex `1+0{p,}` (the "press" pattern of
src/unnamed/part_006:91): some maximal run of '0's of length ≥ p directly
follows a run of '1's.  (Faithful for p ≥ 1, which holds for every positive
configured press duration; the default is 18.) -/
def hasPressRuns (p : Nat) : List (Bool × Nat) → Bool
  | [] => false
  | [_] => false
  | (v₁, _) :: (v₂, n₂) :: rest =>
    (v₁ && !v₂ && decide (p ≤ n₂)) || hasPressRuns p ((v₂, n₂) :: rest)

/-- The unanchored regex `1+0+1{w,}` (the "click" pattern of
src/unnamed/part_006:89): three consecutive maximal runs 1s, 0s, 1s with the
third of length ≥ w.  (Faithful for w ≥ 1; the default is 7.) -/
def hasClickRuns (w : Nat) : List (Bool × Nat) → Bool
  | (v₁, _) :: (v₂, n₂) :: (v₃, n₃) :: rest =>
    (v₁ && !v₂ && v₃ && decide (w ≤ n₃))
      || hasClickRuns w ((v₂, n₂) :: (v₃, n₃) :: rest)
  | _ => false

/-- The unanchored regex `1+0+1+0+1{3,}` (the "twice" pattern of
src/unnamed/part_006:90): five consecutive maximal runs 1s, 0s, 1s, 0s, 1s
with the fifth of length ≥ 3. -/
def hasTwiceRuns : List (Bool × Nat) → Bool
  | (v₁, _) :: (v₂, n₂) :: (v₃, n₃) :: (v₄, n₄) :: (v₅, n₅) :: rest =>
    (v₁ && !v₂ && v₃ && !v₄ && v₅ && decide (3 ≤ n₅))
      || hasTwiceRuns ((v₂, n₂) :: (v₃, n₃) :: (v₄, n₄) :: (v₅, n₅) :: rest)
  | _ => false

/-- `Controller.matchPattern` (src/unnamed/part_006:193-204): the patterns are
tried in the priority order press, twice, click; `none` stands for the empty
string (no event). -/
def matchPattern (pressPeriod waitPeriod : Nat) (buffer : List Bool) : Option BtnEvent :=
  if hasPressRuns pressPeriod (rle buffer) then some BtnEvent.press
  else if hasTwiceRuns (rle buffer) then some BtnEvent.twice
  else if hasClickRuns waitPeriod (rle buffer) then some BtnEvent.click
  else none

/-- State of `Controller.monitorLoop` (src/unnamed/part_006:141-190): the
sample buffer and the event queue standing for the buffered channel `eventCh`
(created with capacity 10, part_006:39). -/
structure MonitorState where
  buffer : List Bool
  queue : List BtnEvent
deriving DecidableEq

/-- Front trimming of src/unnamed/part_006:170-172: `buffer = buffer[1:]`
once the buffer exceeds `bufferSize`. -/
def trimFront (size : Nat) (l : List Bool) : List Bool :=
  if size < l.length then l.drop 1 else l

/-- One ticker iteration of `Controller.monitorLoop`
(src/unnamed/part_006:151-188): append the sampled level ('1' = High), trim,
and once at least 10 samples are buffered try the patterns; a detected event
is sent with `select`/`default`: when the queue has room it is enqueued and
the buffer cleared, when the queue is full the event is dropped (queue and
buffer unchanged) and the loop continues with the next sample. -/
def monitorTick (pressPeriod waitPeriod bufferSize cap : Nat)
    (s : MonitorState) (level : Bool) : MonitorState :=
  if 10 ≤ (trimFront bufferSize (s.buffer ++ [level])).length then
    match matchPattern pressPeriod waitPeriod (trimFront bufferSize (s.buffer ++ [level])) with
    | some ev =>
      if s.queue.length < cap then
        { buffer := [], queue := s.queue ++ [ev] }
      else
        { buffer := trimFront bufferSize (s.buffer ++ [level]), queue := s.queue }
    | none =>
      { buffer := trimFront bufferSize (s.buffer ++ [level]), queue := s.queue }
  else { buffer := trimFront bufferSize (s.buffer ++ [level]), queue := s.queue }

/-! ## Helper lemmas -/

lemma GetFanDutyCycle_mem (r : Bool) (c : FanConfig) (t : ℚ) :
    GetFanDutyCycle r c t = 0 ∨ GetFanDutyCycle r c t = 1/4 ∨
    GetFanDutyCycle r c t = 1/2 ∨ GetFanDutyCycle r c t = 3/4 ∨
    GetFanDutyCycle r c t = 999/1000 := by
  unfold GetFanDutyCycle
  split_ifs <;> simp

lemma policy_close_eq (a b : ℚ)
    (ha : a = 0 ∨ a = 1/4 ∨ a = 1/2 ∨ a = 3/4 ∨ a = 999/1000)
    (hb : b = 0 ∨ b = 1/4 ∨ b = 1/2 ∨ b = 3/4 ∨ b = 999/1000 ∨ b = -1)
    (h : |a - b| < 1/100) : a = b := by
  rw [abs_sub_lt_iff] at h
  rcases ha with rfl | rfl | rfl | rfl | rfl <;>
    rcases hb with rfl | rfl | rfl | rfl | rfl | rfl <;>
    first
      | rfl
      | (exfalso; norm_num at h)

/-! ## Claim theorems C1, C10, C2, C3 -/

/-- Claim C1: the Duty Policy returns 0.999 whenever the run state is false;
when it is true the thresholds are evaluated from highest to lowest:
temp ≥ lv3 gives 0.0, else temp ≥ lv2 gives 0.25, else temp ≥ lv1 gives 0.50,
else temp ≥ lv0 gives 0.75, and otherwise 0.999. -/
theorem getFanDutyCycle_policy (c : FanConfig) (t : ℚ) :
    GetFanDutyCycle false c t = 999/1000
    ∧ (t ≥ c.Lv3 → GetFanDutyCycle true c t = 0)
    ∧ (t < c.Lv3 → t ≥ c.Lv2 → GetFanDutyCycle true c t = 1/4)
    ∧ (t < c.Lv3 → t < c.Lv2 → t ≥ c.Lv1 → GetFanDutyCycle true c t = 1/2)
    ∧ (t < c.Lv3 → t < c.Lv2 → t < c.Lv1 → t ≥ c.Lv0 →
        GetFanDutyCycle true c t = 3/4)
    ∧ (t < c.Lv3 → t < c.Lv2 → t < c.Lv1 → t < c.Lv0 →
        GetFanDutyCycle true c t = 999/1000) := by
  refine ⟨by simp [GetFanDutyCycle], ?_, ?_, ?_, ?_, ?_⟩ <;>
    intros <;>
    simp_all [GetFanDutyCycle, ge_iff_le, not_le.mpr, le_of_lt]

/-- Witness for C1: with the default thresholds 35/40/45/50 a running fan at
42 °C gets duty 0.50. -/
theorem getFanDutyCycle_policy_witness :
    GetFanDutyCycle true ⟨35, 40, 45, 50⟩ 42 = 1/2 := by
  have h := getFanDutyCycle_policy ⟨35, 40, 45, 50⟩ 42
  exact h.2.2.2.1 (by norm_num) (by norm_num) (by norm_num)

/-- Claim C10: every Duty Policy value is one of 0.0, 0.25, 0.50, 0.75,
0.999; in particular it lies in [0, 1] and the backends' clamp leaves it
unchanged. -/
theorem getFanDutyCycle_range (r : Bool) (c : FanConfig) (t : ℚ) :
    (GetFanDutyCycle r c t = 0 ∨ GetFanDutyCycle r c t = 1/4 ∨
     GetFanDutyCycle r c t = 1/2 ∨ GetFanDutyCycle r c t = 3/4 ∨
     GetFanDutyCycle r c t = 999/1000)
    ∧ 0 ≤ GetFanDutyCycle r c t
    ∧ GetFanDutyCycle r c t ≤ 1
    ∧ clampDuty (GetFanDutyCycle r c t) = GetFanDutyCycle r c t := by
  have h := GetFanDutyCycle_mem r c t
  refine ⟨h, ?_, ?_, ?_⟩ <;>
    rcases h with h | h | h | h | h <;>
    rw [h] <;> norm_num [clampDuty]

/-- Claim C2: a target differing from the last written duty by less than
ε = 0.01 causes no backend call on that tick, and a duty repeated on two
consecutive ticks triggers exactly one backend write.  This is literal for
`controlFanLoop` (part_007); `updateFanSpeed` (src/pkg) skips on exact
equality, which coincides because any two distinct values the policy can
produce (or the -1 initial value) differ by at least 0.249. -/
theorem fan_write_debounce (last target : ℚ) (ok : Bool) :
    (|target - last| < 1/100 → controlFanTick target ok last = (last, 0))
    ∧ (1/100 ≤ |target - last| →
        (controlFanTick target true last).2
          + (controlFanTick target true (controlFanTick target true last).1).2 = 1)
    ∧ (∀ (r : Bool) (c : FanConfig) (t : ℚ) (r' : Bool) (c' : FanConfig) (t' : ℚ),
        target = GetFanDutyCycle r c t →
        (last = GetFanDutyCycle r' c' t' ∨ last = -1) →
        |target - last| < 1/100 → updateFanTick target ok last = (last, 0))
    ∧ (target ≠ last →
        (updateFanTick target true last).2
          + (updateFanTick target true (updateFanTick target true last).1).2 = 1) := by
  refine ⟨?_, ?_, ?_, ?_⟩
  · intro h
    rw [controlFanTick, if_neg (not_le.mpr h)]
  · intro h
    have h1 : controlFanTick target true last = (target, 1) := by
      rw [controlFanTick, if_pos h]; rfl
    have h2 : controlFanTick target true target = (target, 0) := by
      rw [controlFanTick, if_neg (by rw [sub_self, abs_zero]; norm_num)]
    rw [h1, h2]
    rfl
  · intro r c t r' c' t' htgt hlast h
    have heq : target = last := by
      refine policy_close_eq target last ?_ ?_ h
      · rw [htgt]; exact GetFanDutyCycle_mem r c t
      · rcases hlast with hl | hl
        · rw [hl]
          rcases GetFanDutyCycle_mem r' c' t' with h5 | h5 | h5 | h5 | h5 <;> tauto
        · tauto
    rw [updateFanTick, if_neg]
    simp [heq]
  · intro h
    rw [updateFanTick, if_pos h]
    simp [updateFanTick]

/-- Witness for C2: with last duty 0.999 a repeated 0.999 target is never
written; a repeated 0.0 target (fan switched to full) is written exactly
once; the policy-valued case with equal values skips. -/
theorem fan_write_debounce_witness :
    controlFanTick (999/1000) true (999/1000) = (999/1000, 0)
    ∧ (controlFanTick 0 true (999/1000)).2
        + (controlFanTick 0 true (controlFanTick 0 true (999/1000)).1).2 = 1
    ∧ updateFanTick (999/1000) true (999/1000) = (999/1000, 0) := by
  have h₁ := fan_write_debounce (999/1000) (999/1000) true
  have h₂ := fan_write_debounce (999/1000) 0 true
  refine ⟨h₁.1 (by rw [sub_self, abs_zero]; norm_num),
    h₂.2.1 (le_abs.mpr (Or.inr (by norm_num))), ?_⟩
  exact (h₁.2.2.1 true ⟨35, 40, 45, 50⟩ 30 false ⟨35, 40, 45, 50⟩ 30
    (by norm_num [GetFanDutyCycle]) (Or.inl (by norm_num [GetFanDutyCycle]))
    (by rw [sub_self, abs_zero]; norm_num))

/-- Claim C3 (code bug, evaluation): `Controller.setDutyCycle` in
src/cmd/pkg/hardware/fan/fan.go records `lastDuty := duty` before the backend
call, so after a failed write of target 0.0 over last 0.999 the recorded duty
is already 0.0 and the next tick with the same target makes no backend call —
no retry ever happens.  `controlFanLoop` (part_007) behaves as the claim
says: a failed write leaves lastDuty at 0.999 and the next tick retries. -/
theorem cmd_setDutyCycle_failure_eval :
    cmdSetDutyCycle 0 (999/1000) false = (0, 1, false)
    ∧ cmdSetDutyCycle 0 0 true = (0, 0, true)
    ∧ controlFanTick 0 false (999/1000) = (999/1000, 1)
    ∧ controlFanTick 0 true (999/1000) = (0, 1) := by
  have hc : (1 : ℚ)/100 ≤ |0 - 999/1000| := le_abs.mpr (Or.inr (by norm_num))
  refine ⟨?_, ?_, ?_, ?_⟩
  · norm_num [cmdSetDutyCycle]
  · norm_num [cmdSetDutyCycle]
  · rw [controlFanTick, if_pos hc]; rfl
  · rw [controlFanTick, if_pos hc]; rfl

/-! ## Claim C4 (temperature cache) -/

/-- Counterexample to claim C4: at tick time 100 s with a cache captured at
time 0 (100 s old, far past the 60 s TTL) and both sensor reads failing,
part_007's `getTemperatureForFanControl` returns the 100-second-old cached
55 °C (cache left unrefreshed), and the Duty Policy computes duty 0.0 from
it — a reading older than the TTL used to compute a duty. -/
theorem tempcache_stale_used_eval :
    (60 : ℤ) < 100 - 0
    ∧ getTemperatureForFanControl 100 ⟨55, 0⟩ none none = (55, ⟨55, 0⟩)
    ∧ GetFanDutyCycle true ⟨35, 40, 45, 50⟩
        (getTemperatureForFanControl 100 ⟨55, 0⟩ none none).1 = 0 := by
  refine ⟨by norm_num, ?_, ?_⟩ <;>
    norm_num [getTemperatureForFanControl, GetFanDutyCycle]

/-- Claim C4 as amended: a cached reading younger than the 60 s TTL is reused
with no sensor I/O (the result does not depend on the sensor inputs and the
cache is unchanged); at or past the TTL a refresh is attempted before use and
a successful disk read is used fresh and cached; if the refresh fails,
src/cmd's `getTemperature` skips the tick (`none`, no duty computed) while
part_007's `getTemperatureForFanControl` falls back to the stale cached value
when it is positive. -/
theorem tempcache_ttl_behavior (now : ℤ) (cache : TempCache)
    (dk₁ cp₁ dk₂ cp₂ : Option ℚ) (d : ℚ) :
    (now - cache.Timestamp < 60 →
      getTemperatureForFanControl now cache dk₁ cp₁ = (cache.Value, cache)
      ∧ getTemperatureForFanControl now cache dk₁ cp₁
          = getTemperatureForFanControl now cache dk₂ cp₂)
    ∧ (60 ≤ now - cache.Timestamp → 0 < d →
      getTemperatureForFanControl now cache (some d) cp₁ = (d, ⟨d, now⟩))
    ∧ (60 ≤ now - cache.Timestamp → 0 < cache.Value →
      getTemperatureForFanControl now cache none none = (cache.Value, cache))
    ∧ (60 ≤ now - cache.Timestamp →
      getTemperature now cache.Value cache.Timestamp none = none) := by
  refine ⟨?_, ?_, ?_, ?_⟩
  · intro h
    constructor <;> rw [getTemperatureForFanControl.eq_def, if_pos h]
    rw [getTemperatureForFanControl.eq_def, if_pos h]
  · intro h hd
    rw [getTemperatureForFanControl.eq_def, if_neg (not_lt.mpr h)]
    simp [hd]
  · intro h hv
    rw [getTemperatureForFanControl.eq_def, if_neg (not_lt.mpr h)]
    simp [hv]
  · intro h
    rw [getTemperature, if_neg (not_lt.mpr h)]

/-- Witness for the amended C4: a 10-second-old 50 °C reading is reused
untouched; a 100-second-old one is replaced by a fresh 70 °C disk reading;
src/cmd skips the tick when the stale refresh fails. -/
theorem tempcache_ttl_behavior_witness :
    getTemperatureForFanControl 10 ⟨50, 0⟩ (some 70) none = (50, ⟨50, 0⟩)
    ∧ getTemperatureForFanControl 100 ⟨50, 0⟩ (some 70) none = (70, ⟨70, 100⟩)
    ∧ getTemperature 100 50 0 none = none := by
  have h₁ := tempcache_ttl_behavior 10 ⟨50, 0⟩ (some 70) none (some 70) none 70
  have h₂ := tempcache_ttl_behavior 100 ⟨50, 0⟩ (some 70) none (some 70) none 70
  exact ⟨(h₁.1 (by norm_num)).1, h₂.2.1 (by norm_num) (by norm_num),
    h₂.2.2.2 (by norm_num)⟩

/-! ## Claims C5, C6 (software PWM) -/

lemma handleTick_special (s : SoftPWMState)
    (h : s.currentDuty = 0 ∨ 100 ≤ s.currentDuty) : handleTick s = (s, []) := by
  rw [handleTick]
  rcases h with h | h
  · rw [if_pos]
    left
    rw [h]
    norm_num
  · rw [if_pos]
    right
    rw [ge_iff_le, le_div_iff₀ (by norm_num : (0:ℚ) < 100), one_mul]
    exact_mod_cast h

lemma runTicks_special (n : Nat) (s : SoftPWMState)
    (h : s.currentDuty = 0 ∨ 100 ≤ s.currentDuty) : runTicks n s = (s, []) := by
  induction n with
  | zero => rfl
  | succ n ih =>
    rw [runTicks, handleTick_special s h]
    simp [ih]

/-- Claim C5: for the software PWM backends, a duty at or below the low
special-case threshold holds the line permanently low with no further pin
writes, and one at or above the high threshold holds it permanently high.
For part_007's `runPWM` the special-case region is duty < 0.01 (clamped to
0.0, the line driven low once and every subsequent ticker iteration skipped)
and duty > 0.99 (clamped to 1.0, held high); duties 0.0 and 1.0 are included.
For src/pkg's `runPWM` every iteration at duty ≤ 0.001 writes only Low and at
duty ≥ 0.999 only High — the line never toggles in either case. -/
theorem softpwm_special_cases (d : ℚ) (s : SoftPWMState) (n : Nat) :
    (d < 1/100 →
      (handleDutyUpdate d s).2 = [GpioLevel.low]
      ∧ (handleDutyUpdate d s).1.pinState = GpioLevel.low
      ∧ runTicks n (handleDutyUpdate d s).1 = ((handleDutyUpdate d s).1, []))
    ∧ (d > 99/100 →
      (handleDutyUpdate d s).2 = [GpioLevel.high]
      ∧ (handleDutyUpdate d s).1.pinState = GpioLevel.high
      ∧ runTicks n (handleDutyUpdate d s).1 = ((handleDutyUpdate d s).1, []))
    ∧ (d ≤ 1/1000 → swTick d = [GpioLevel.low])
    ∧ (999/1000 ≤ d → swTick d = [GpioLevel.high]) := by
  refine ⟨?_, ?_, ?_, ?_⟩
  · intro h
    have hupd : handleDutyUpdate d s
        = (⟨GpioLevel.low, 0, 0⟩, [GpioLevel.low]) := by
      rw [handleDutyUpdate]
      simp only [if_pos h]
      norm_num
    rw [hupd]
    exact ⟨rfl, rfl, runTicks_special n _ (Or.inl rfl)⟩
  · intro h
    have hupd : handleDutyUpdate d s
        = (⟨GpioLevel.high, 0, 100⟩, [GpioLevel.high]) := by
      rw [handleDutyUpdate]
      simp only [if_neg (not_lt.mpr (le_of_lt
        (lt_trans (show (1:ℚ)/100 < 99/100 by norm_num) h))), if_pos h]
      norm_num
      rfl
    rw [hupd]
    exact ⟨rfl, rfl, runTicks_special n _ (Or.inr (by norm_num))⟩
  · intro h
    rw [swTick, if_pos h]
  · intro h
    rw [swTick, if_neg (by linarith), if_pos (ge_iff_le.mpr h)]

/-- Witness for C5: an incoming duty 0.0 on a state that was mid-cycle with
the pin high drives the line low once and three subsequent ticker iterations
write nothing; duty 1.0 symmetrically holds it high; the src/pkg loop writes
only Low at duty 0 and only High at duty 1. -/
theorem softpwm_special_cases_witness :
    (handleDutyUpdate 0 ⟨GpioLevel.high, 37, 50⟩).2 = [GpioLevel.low]
    ∧ runTicks 3 (handleDutyUpdate 0 ⟨GpioLevel.high, 37, 50⟩).1
        = ((handleDutyUpdate 0 ⟨GpioLevel.high, 37, 50⟩).1, [])
    ∧ (handleDutyUpdate 1 ⟨GpioLevel.low, 37, 50⟩).2 = [GpioLevel.high]
    ∧ swTick 0 = [GpioLevel.low]
    ∧ swTick 1 = [GpioLevel.high] := by
  have h₀ := softpwm_special_cases 0 ⟨GpioLevel.high, 37, 50⟩ 3
  have h₁ := softpwm_special_cases 1 ⟨GpioLevel.low, 37, 50⟩ 3
  exact ⟨(h₀.1 (by norm_num)).1, (h₀.1 (by norm_num)).2.2,
    (h₁.2.1 (by norm_num)).1, h₀.2.2.1 (by norm_num), h₁.2.2.2 (by norm_num)⟩

/-- Claim C6 (code bug, evaluation): `SoftwarePWM.Close` (src/pkg) merely
terminates the timing loop — with the line last driven High (e.g. duty ≥
0.999) it performs no pin write and the line stays High after shutdown, so
the actuator is NOT left in its safe/off state.  part_007's
`softwarePWMFan.Cleanup` does what the claim says: the stop arm and Cleanup
both drive Low and the final level is Low; the hardware backends disable the
peripheral. -/
theorem pwm_shutdown_eval :
    SoftwarePWM.Close ⟨true, GpioLevel.high⟩ = (⟨false, GpioLevel.high⟩, [])
    ∧ (SoftwarePWM.Close ⟨true, GpioLevel.high⟩).1.line = GpioLevel.high
    ∧ softwarePWMFan.Cleanup ⟨GpioLevel.high, 37, 100⟩
        = (⟨GpioLevel.low, 37, 100⟩, [GpioLevel.low, GpioLevel.low])
    ∧ HardwarePWM.Close true = false := by
  refine ⟨rfl, rfl, rfl, rfl⟩

/-! ## Claims C9, C8 (event queue and click detection) -/

/-- Claim C9 as amended, part_006 side: on any monitor tick on which the
queue already holds `cap` or more events, the queue is left unchanged — a
newly detected event is dropped (the newest one) and the loop simply
continues with the next sample; the tick is a total function, so a full
queue cannot stall it. -/
theorem monitor_queue_full_drops (p w size cap : Nat) (s : MonitorState)
    (level : Bool) (hfull : cap ≤ s.queue.length) :
    (monitorTick p w size cap s level).queue = s.queue := by
  rw [monitorTick]
  split
  · split
    · rw [if_neg (Nat.not_lt.mpr hfull)]
    · rfl
  · rfl

/-- Witness for the amended C9: with the part_006 queue (capacity 10) already
full, a tick on which the released sample completes a click pattern
(runs 1,1 0,0,0 1,1,1,1,1,1,1 — final released run reaching 7) detects the
event but leaves the queue unchanged: the newest event is dropped. -/
theorem monitor_queue_full_drops_witness :
    (monitorTick 18 7 18 10
      ⟨List.replicate 2 true ++ List.replicate 3 false ++ List.replicate 6 true,
        List.replicate 10 BtnEvent.press⟩ true).queue
      = List.replicate 10 BtnEvent.press :=
  monitor_queue_full_drops 18 7 18 10
    ⟨List.replicate 2 true ++ List.replicate 3 false ++ List.replicate 6 true,
      List.replicate 10 BtnEvent.press⟩ true (by decide)

/-- Counterexample to claim C9: the part_005 watcher sends events with a
plain blocking send on its capacity-5 channel.  At the sample on which a long
press completes (the buffer reaches 18 trailing zeros) while the queue is
already full with 5 undelivered events, the send cannot complete and gesture
detection stalls — the step has no non-blocking completion (`none`),
contradicting "a full queue never stalls gesture detection". -/
theorem watch_blocks_when_queue_full :
    watchStepQ 5 ⟨18, 7, 23⟩
      ⟨List.replicate 6 true ++ List.replicate 17 false, false⟩
      (List.replicate 5 BtnEvent.press) false = none := by decide

/-- Claim C8 (code bug, evaluation): running part_005's watcher on the spec's
own truth-table stream — press held 3 samples, then released and High for 8
samples, with the default windows (twice = 0.7 s, press = 1.8 s) — emits NO
events at all: the click pattern is only consulted on the release-transition
sample, where the trailing released-run has length 1 < waitSamples, so
`checkClickTiming` fails and, `lastLevel` being High from then on, it is
never consulted again.  The claim requires exactly one Click. -/
theorem watch_no_click_eval :
    (watchRun ⟨18, 7, 23⟩ ⟨List.replicate 23 true, true⟩
      ([false, false, false] ++ List.replicate 8 true)).1 = []
    ∧ (watchRun ⟨18, 7, 23⟩ ⟨List.replicate 23 true, true⟩
      ([false, false, false] ++ List.replicate 20 true)).1 = [] := by decide

/-! ## Claim C7 (long press): list lemmas -/

lemma lastIndexOf_append_none (v : Bool) (l₁ l₂ : List Bool)
    (h : lastIndexOf v l₂ = none) :
    lastIndexOf v (l₁ ++ l₂) = lastIndexOf v l₁ := by
  induction l₁ with
  | nil => simpa using h
  | cons a l₁ ih => simp [lastIndexOf, ih]

lemma lastIndexOf_append_some (v : Bool) (l₁ l₂ : List Bool) (i : Nat)
    (h : lastIndexOf v l₂ = some i) :
    lastIndexOf v (l₁ ++ l₂) = some (l₁.length + i) := by
  induction l₁ with
  | nil => simpa using h
  | cons a l₁ ih =>
    simp only [List.cons_append, lastIndexOf, List.append_eq, ih,
      List.length_cons]
    congr 1
    omega

lemma lastIndexOf_replicate (n : Nat) (v : Bool) :
    lastIndexOf v (List.replicate n v) = if n = 0 then none else some (n - 1) := by
  induction n with
  | zero => rfl
  | succ n ih =>
    rw [List.replicate_succ, lastIndexOf, ih]
    cases n <;> simp

lemma lastIndexOf_replicate_ne (n : Nat) (v w : Bool) (hvw : v ≠ w) :
    lastIndexOf v (List.replicate n w) = none := by
  induction n with
  | zero => rfl
  | succ n ih =>
    rw [List.replicate_succ, lastIndexOf, ih]
    simp [Ne.symm hvw]

lemma runValues_replicate_succ (n : Nat) (x : Bool) :
    runValues (List.replicate (n + 1) x) = [x] := by
  induction n with
  | zero => rfl
  | succ m ih =>
    rw [List.replicate_succ, List.replicate_succ, runValues, if_pos rfl,
      ← List.replicate_succ]
    exact ih

lemma runValues_replicate (n : Nat) (x : Bool) (hn : 1 ≤ n) :
    runValues (List.replicate n x) = [x] := by
  obtain ⟨m, rfl⟩ : ∃ m, n = m + 1 := ⟨n - 1, by omega⟩
  exact runValues_replicate_succ m x

lemma runValues_replicate_append_succ (a b : Nat) (x y : Bool) (hxy : x ≠ y) :
    runValues (List.replicate (a + 1) x ++ List.replicate (b + 1) y)
      = [x, y] := by
  induction a with
  | zero =>
    rw [List.replicate_one, List.singleton_append, List.replicate_succ,
      runValues, if_neg hxy, ← List.replicate_succ,
      runValues_replicate_succ b y]
  | succ a' ih =>
    rw [List.replicate_succ, List.cons_append, List.replicate_succ,
      List.cons_append, runValues, if_pos rfl, ← List.cons_append,
      ← List.replicate_succ]
    exact ih

lemma runValues_replicate_append (a b : Nat) (x y : Bool) (ha : 1 ≤ a)
    (hb : 1 ≤ b) (hxy : x ≠ y) :
    runValues (List.replicate a x ++ List.replicate b y) = [x, y] := by
  obtain ⟨a', rfl⟩ : ∃ t, a = t + 1 := ⟨a - 1, by omega⟩
  obtain ⟨b', rfl⟩ : ∃ t, b = t + 1 := ⟨b - 1, by omega⟩
  exact runValues_replicate_append_succ a' b' x y hxy

lemma pressPatternMatch_rep (m z : Nat) (hm : 1 ≤ m) (hz : 1 ≤ z) :
    pressPatternMatch (List.replicate m true ++ List.replicate z false) = true := by
  rw [pressPatternMatch, List.reverse_append, List.reverse_replicate,
    List.reverse_replicate,
    runValues_replicate_append z m false true hz hm (by simp)]
  rfl

lemma checkPressTiming_rep (P W m z : Nat) (hm : 1 ≤ m) (hz : 1 ≤ z) :
    checkPressTiming ⟨P, W, P + 5⟩
        (List.replicate m true ++ List.replicate z false)
      = decide (P ≤ z) := by
  have hli : lastIndexOf true (List.replicate m true ++ List.replicate z false)
      = some (m - 1) := by
    rw [lastIndexOf_append_none true _ _
        (lastIndexOf_replicate_ne z true false (by simp)),
      lastIndexOf_replicate m true, if_neg (by omega)]
  unfold checkPressTiming
  rw [hli]
  simp only [List.length_append, List.length_replicate]
  rw [if_neg (by omega)]
  simp only [show m + z - (m - 1 + 1) = z by omega]

lemma trimBuffer_shift (P k : Nat) (hk : k ≤ P + 4) :
    trimBuffer (P + 5)
        ((List.replicate (P + 5 - k) true ++ List.replicate k false) ++ [false])
      = List.replicate (P + 5 - (k + 1)) true ++ List.replicate (k + 1) false := by
  have hlen : ((List.replicate (P + 5 - k) true ++ List.replicate k false)
      ++ [false]).length = P + 6 := by
    simp
    omega
  rw [trimBuffer, hlen, if_pos (by omega), show P + 6 - (P + 5) = 1 by omega,
    List.append_assoc, ← List.replicate_succ',
    show List.replicate (P + 5 - k) true
      = true :: List.replicate (P + 5 - (k + 1)) true from by
      rw [show P + 5 - k = (P + 5 - (k + 1)) + 1 by omega, List.replicate_succ],
    List.cons_append]
  rfl

lemma watchStep_low (P W k : Nat) (b : Bool) (hkP : k + 1 ≤ P) :
    watchStep ⟨P, W, P + 5⟩
        ⟨List.replicate (P + 5 - k) true ++ List.replicate k false, b⟩ false
      = if P ≤ k + 1
        then (⟨List.replicate (P + 5) true, false⟩, [BtnEvent.press])
        else (⟨List.replicate (P + 5 - (k + 1)) true
                ++ List.replicate (k + 1) false, false⟩, []) := by
  have hm : 1 ≤ P + 5 - (k + 1) := by omega
  simp only [watchStep]
  rw [trimBuffer_shift P k (by omega)]
  rw [pressPatternMatch_rep (P + 5 - (k + 1)) (k + 1) hm (by omega),
    checkPressTiming_rep P W (P + 5 - (k + 1)) (k + 1) hm (by omega)]
  by_cases h : P ≤ k + 1
  · simp [h]
  · simp [h]

lemma watchRun_low (P W : Nat) (rest : List Bool) :
    ∀ j k : Nat, 1 ≤ j → k + j = P → ∀ b : Bool,
    watchRun ⟨P, W, P + 5⟩
        ⟨List.replicate (P + 5 - k) true ++ List.replicate k false, b⟩
        (List.replicate j false ++ rest)
      = (BtnEvent.press
          :: (watchRun ⟨P, W, P + 5⟩ ⟨List.replicate (P + 5) true, false⟩ rest).1,
         (watchRun ⟨P, W, P + 5⟩ ⟨List.replicate (P + 5) true, false⟩ rest).2) := by
  intro j
  induction j with
  | zero => intro k h1 h2 b; omega
  | succ j ih =>
    intro k hj hkj b
    rw [List.replicate_succ, List.cons_append, watchRun,
      watchStep_low P W k b (by omega)]
    by_cases hcase : P ≤ k + 1
    · have hj0 : j = 0 := by omega
      subst hj0
      rw [if_pos hcase]
      dsimp only
      simp [watchRun]
    · rw [if_neg hcase]
      dsimp only
      have hstep := ih (k + 1) (by omega) (by omega) false
      rw [hstep]
      simp

/-- Claim C7: whenever the button is held pressed (level Low) continuously
for the configured long-press sample count `P` (`int(conf.Time.Press / 0.1)`;
18 at the 1.8 s default under exact arithmetic), part_005's watcher emits the
long-press event on the `P`-th held sample — while the button is still held,
before any release — and then continues from the reset state on the
remaining samples `rest`.  Since the equation holds for every `rest`, the
subsequent release timing cannot change the already-emitted event, which is
the first event of the run. -/
theorem watch_longPress_immediate (P W : Nat) (hP : 1 ≤ P) (rest : List Bool) :
    watchRun ⟨P, W, P + 5⟩ ⟨List.replicate (P + 5) true, true⟩
        (List.replicate P false ++ rest)
      = (BtnEvent.press
          :: (watchRun ⟨P, W, P + 5⟩ ⟨List.replicate (P + 5) true, false⟩ rest).1,
         (watchRun ⟨P, W, P + 5⟩ ⟨List.replicate (P + 5) true, false⟩ rest).2) := by
  have h := watchRun_low P W rest P 0 hP (by omega) true
  simpa using h

/-- Witness for C7: with the default windows (press 18 samples, twice 7) a
hold of 18 samples followed by two released samples yields exactly the press
event, emitted before the released samples are processed. -/
theorem watch_longPress_immediate_witness :
    watchRun ⟨18, 7, 23⟩ ⟨List.replicate 23 true, true⟩
        (List.replicate 18 false ++ [true, true])
      = (BtnEvent.press
          :: (watchRun ⟨18, 7, 23⟩ ⟨List.replicate 23 true, false⟩ [true, true]).1,
         (watchRun ⟨18, 7, 23⟩ ⟨List.replicate 23 true, false⟩ [true, true]).2) :=
  watch_longPress_immediate 18 7 (by omega) [true, true]
